import Mathlib

set_option maxRecDepth 100000

/-!
Verification of the socket-adventure server (`server.py`).

The server is embedded shallowly: Python strings are modelled as `List Char`
(so that every operation is structurally recursive and kernel-evaluable),
the `Server` object's mutable fields become a Lean structure, and each
method becomes a pure function from the old state (plus arguments) to the
new state.  Socket I/O is modelled at the boundary: `push_output` returns
the exact character sequence handed to `sendall`, `get_input` consumes an
oracle giving the chunks successive `recv` calls return, and the
`serve` loop consumes a list of already-stripped input lines.
-/

/-- Python strings are modelled as lists of characters. -/
abbrev Str := List Char

/-- Coercion from a Lean string literal to the `List Char` model. -/
def str (s : String) : Str := s.data

/-- Model of Python `str.lower()`.  `Char.toLower` lower-cases exactly the
ASCII letters, which agrees with Python on the ASCII protocol alphabet the
server uses. -/
def pyLower (l : Str) : Str := l.map Char.toLower

/-- Model of Python `str.split(' ')` (explicit single-space separator, empty
pieces kept): the accumulator holds the current piece reversed. -/
def pySplitSp : Str → Str → List Str
  | [], acc => [acc.reverse]
  | c :: cs, acc =>
      if c = ' ' then acc.reverse :: pySplitSp cs [] else pySplitSp cs (c :: acc)

/-- Python `line.split(' ')`. -/
def pySplit (l : Str) : List Str := pySplitSp l []

/-- Model of Python `' '.join(pieces)`. -/
def pyJoinSp : List Str → Str
  | [] => []
  | [x] => x
  | x :: xs => x ++ ' ' :: pyJoinSp xs

/-- Whitespace characters removed by Python `str.strip()`. -/
def pyIsSpace (c : Char) : Bool :=
  c = ' ' ∨ c = '\t' ∨ c = '\n' ∨ c = '\r' ∨ c = '\x0b' ∨ c = '\x0c'

/-- Model of Python `str.strip()`. -/
def pyStrip (l : Str) : Str :=
  ((l.dropWhile pyIsSpace).reverse.dropWhile pyIsSpace).reverse

/-- Python truthiness test `not room` for a value that is either `None` or a
string: `None` and the empty string are falsy. -/
def pyFalsy : Option Str → Bool
  | none => true
  | some l => l.isEmpty

/-- Per-connection server state: the instance attributes of `class Server`
that the protocol logic reads or writes (`self.input_buffer`,
`self.output_buffer`, `self.done`, `self.room`).  The socket handles and the
port are external collaborators and are not part of the logical state. -/
structure Server where
  input_buffer : Str
  output_buffer : Str
  done : Bool
  room : Int
deriving DecidableEq, Repr

namespace Server

/-- Class attribute `game_name`. -/
def game_name : Str := str "Explore the Andromeda Timecraft (ATC) Serendipity"

/-- Initial state built by `__init__`. -/
def init : Server :=
  { input_buffer := [], output_buffer := [], done := false, room := 0 }

/-- Local variable `craft_plaque` of `room_description` (the Python adjacent
string literals concatenated). -/
def craft_plaque : Str :=
  str "\n\n\"ATC Serendipity (KTIME01)\n\n\x27The universe, in its infinite perfection, is merely an unlikely series of Serendipities.\x27 - Stella Starchelle (The Mother of Interstellar Flight), 0 SFE (Space Faring Era)\n\nThis Timecraft is an Ekiya Glide Company 256 Glyde Gx 2350 Temporal Edition commissioned on 03/17/32915 SFE by the AHC Department of Temporal Integrity:\n\nKima Amber Metoyo (Temporal Operative)\nAstra Jayne Matsume (Temporal Analyst)\nDelilah Quincy Matsuka (Temporal Developer)\""

/-- Description of room 0 in the `rooms` dict of `room_description`. -/
def room_0_desc : Str :=
  str "You are at the temporal developer console.  The curved glass screen displays the tmpOrl IDE and the code to fold the time craft through the fourth dimension (time)."

/-- Description of room 1 in the `rooms` dict of `room_description`. -/
def room_1_desc : Str :=
  str "You are at the port side of the timecraft.  The only thing here is a small control panel for opening the glass windshield of the timecraft.  The controls are greyed out with the word \x27Unauthorized\x27 overlayed on them."

/-- Description of room 2 in the `rooms` dict of `room_description` (an
f-string interpolating `craft_plaque`). -/
def room_2_desc : Str :=
  str "You are at the starbord side of the timecraft.  There is a plaque on the wall that reads: " ++ craft_plaque

/-- Description of room 3 in the `rooms` dict of `room_description`. -/
def room_3_desc : Str :=
  str "You are at the front of the timecraft.  The temporal operative and temporal analyst would sit here to guide the craft.  On the dashboard, the chronotonium temporal filament sparkles in a dazzling array of colors underneith a dome of glass."

/-- Method `room_description`: `rooms.get(room_number)`, which yields `None`
for a key outside the dict. -/
def room_description (room_number : Int) : Option Str :=
  if room_number = 0 then some room_0_desc
  else if room_number = 1 then some room_1_desc
  else if room_number = 2 then some room_2_desc
  else if room_number = 3 then some room_3_desc
  else none

/-- The diagnostic written by the dead-man branch of `move` when `room` is
falsy (the Python adjacent string literals concatenated). -/
def collapse_desc : Str :=
  str "You have some how entered an invalid state and the timeline is collapsing!  You feel an unnerving lurch as you are torn from the colapsing timeline and returned to a stable timeline."

/-- The rejection body `move` writes when no transition condition holds. -/
def reject_msg : Str := str "Bad! You cannot move in that direction."

/-- Method `move`.  The `if/elif` chain either mutates `self.room` (leaving
the local `room` at `None`) or sets the local `room` to the rejection
message; the pair `chain` records (local `room`, `self.room` after the
chain).  Then `room = self.room_description(self.room) if room is None else
room`, and the `if not room` guard replaces a falsy `room` with the
diagnostic and resets `self.room` to 0.  Finally `self.output_buffer =
room`. -/
def move (s : Server) (argument : Str) : Server :=
  let argument := pyLower argument
  let chain : Option Str × Int :=
    if argument = str "north" ∧ s.room = 0 then (none, 3)
    else if argument = str "south" ∧ s.room = 3 then (none, 0)
    else if argument = str "east" ∧ s.room = 0 then (none, 1)
    else if argument = str "east" ∧ s.room = 2 then (none, 0)
    else if argument = str "west" ∧ s.room = 0 then (none, 2)
    else if argument = str "west" ∧ s.room = 1 then (none, 0)
    else (some reject_msg, s.room)
  let room : Option Str :=
    if chain.1 = none then room_description chain.2 else chain.1
  if pyFalsy room then
    { s with room := 0, output_buffer := collapse_desc }
  else
    { s with room := chain.2, output_buffer := room.getD [] }

/-- Method `say`: `self.output_buffer = f"You say, \"{argument}\""`. -/
def say (s : Server) (argument : Str) : Server :=
  { s with output_buffer := str "You say, \"" ++ argument ++ str "\"" }

/-- Method `quit`: sets `self.done` and writes `Goodbye!`; the argument is
ignored. -/
def quit (s : Server) (argument : Str) : Server :=
  let _ := argument
  { s with done := true, output_buffer := str "Goodbye!" }

/-- The verb `route` extracts: `self.input_buffer.split(' ')[0].lower()`. -/
def route_command (line : Str) : Str := pyLower ((pySplit line).headD [])

/-- The argument `route` extracts: `" ".join(self.input_buffer.split(' ')[1:])`. -/
def route_action (line : Str) : Str := pyJoinSp (pySplit line).tail

/-- Method `route`: dispatch on the verb through the `functions` dict, with
the `Bad!` guidance message as the default case. -/
def route (s : Server) : Server :=
  let command := route_command s.input_buffer
  let action := route_action s.input_buffer
  if command = str "quit" then quit s action
  else if command = str "say" then say s action
  else if command = str "move" then move s action
  else { s with output_buffer := str "Bad! You can either move, say, or quit." }

/-- Method `push_output`: the exact character sequence passed to
`self.client_connection.sendall` (an f-string appending a space and the
terminator, prefixed with `OK! ` unless the body starts with `Bad!`). -/
def push_output (s : Server) : Str :=
  if (str "Bad!").isPrefixOf s.output_buffer then s.output_buffer ++ str " \n"
  else str "OK! " ++ s.output_buffer ++ str " \n"

/-- Method `greet`: `"Welcome to {}! {}".format(game_name,
room_description(room))`; Python `format` renders `None` as `None`. -/
def greet (s : Server) : Server :=
  let desc : Str :=
    match room_description s.room with
    | some l => l
    | none => str "None"
  { s with output_buffer := str "Welcome to " ++ game_name ++ str "! " ++ desc }

/-- The accumulation loop of method `get_input`: `msg` grows by one `recv`
result per iteration until it contains a newline byte.  `recv i` is the
chunk the i-th call to `self.client_connection.recv(16)` returns (an orderly
peer shutdown makes every further call return the empty chunk).  `fuel`
bounds the number of iterations inspected; `none` means the loop is still
running after `fuel` iterations. -/
def get_input_loop (recv : Nat → Str) : Nat → Nat → Str → Option Str
  | 0, _, msg => if ('\n') ∈ msg then some msg else none
  | fuel + 1, i, msg =>
      if ('\n') ∈ msg then some msg
      else get_input_loop recv fuel (i + 1) (msg ++ recv i)

/-- Method `get_input` up to the decode/strip step: the stripped line it
would store in `self.input_buffer`, or `none` if the loop has not finished
within `fuel` iterations. -/
def get_input (recv : Nat → Str) (fuel : Nat) : Option Str :=
  (get_input_loop recv fuel 0 []).map pyStrip

/-- The `while not self.done` loop of method `serve`, driven by a list of
already-stripped input lines (the successive values `get_input` stores in
`self.input_buffer`).  Returns the transmitted messages in order and the
final state; lines remaining after `done` is set are never read. -/
def serve_loop : Server → List Str → List Str × Server
  | s, [] => ([], s)
  | s, line :: rest =>
      if s.done then ([], s)
      else
        let s1 := route { s with input_buffer := line }
        let r := serve_loop s1 rest
        (push_output s1 :: r.1, r.2)

/-- Method `serve` after `connect`: greet, transmit, then run the loop.
Returns every transmitted message in order and the final state (after which
the connection and listening socket are closed). -/
def serve (s : Server) (lines : List Str) : List Str × Server :=
  let s0 := greet s
  let r := serve_loop s0 lines
  (push_output s0 :: r.1, r.2)

end Server

/-- The six edges of the room graph, read off the transition chain of
`move`: (room, direction, destination). -/
def edges : List (Int × Str × Int) :=
  [(0, str "north", 3), (3, str "south", 0), (0, str "east", 1),
   (1, str "west", 0), (0, str "west", 2), (2, str "east", 0)]

/-- The four direction tokens the move handler recognizes. -/
def directions : List Str := [str "north", str "south", str "east", str "west"]

/-- The MoveTable of the spec as a partial lookup, mirroring the transition
chain of `move`: the destination, if the (room, direction) pair has an
edge. -/
def MoveTable (r : Int) (d : Str) : Option Int :=
  if d = str "north" ∧ r = 0 then some 3
  else if d = str "south" ∧ r = 3 then some 0
  else if d = str "east" ∧ r = 0 then some 1
  else if d = str "east" ∧ r = 2 then some 0
  else if d = str "west" ∧ r = 0 then some 2
  else if d = str "west" ∧ r = 1 then some 0
  else none

/-- Splits a line the way the claim describes the router: at the first
whitespace run, the verb before it, the argument after it (stated from the
claim words, for comparison with `route_command`/`route_action`). -/
def spec_split_run (line : Str) : Str × Str :=
  (line.takeWhile (fun c => ¬ pyIsSpace c),
   (line.dropWhile (fun c => ¬ pyIsSpace c)).dropWhile pyIsSpace)

/-! Helper lemmas shared by the claim theorems. -/

/-- Characterization of the `rooms.get` lookup failing. -/
lemma room_description_none_iff (r : Int) :
    Server.room_description r = none ↔ ¬(r = 0 ∨ r = 1 ∨ r = 2 ∨ r = 3) := by
  unfold Server.room_description
  split_ifs with h1 h2 h3 h4 <;> simp_all

/-- When the (room, lowered direction) pair has no edge, `move` writes the
rejection message and leaves every other field, the room included,
unchanged. -/
lemma move_reject (s : Server) (arg : Str)
    (hno : MoveTable s.room (pyLower arg) = none) :
    Server.move s arg = { s with output_buffer := Server.reject_msg } := by
  simp only [Server.move]
  unfold MoveTable at hno
  split_ifs at hno with h1 h2 h3 h4 h5 h6
  rw [if_neg h1, if_neg h2, if_neg h3, if_neg h4, if_neg h5, if_neg h6]
  rfl

/-- Splitting a space-free string gives one piece. -/
lemma pySplitSp_no_sp (l : Str) (acc : Str) (h : (' ') ∉ l) :
    pySplitSp l acc = [acc.reverse ++ l] := by
  induction l generalizing acc with
  | nil => simp [pySplitSp]
  | cons c cs ih =>
      rw [pySplitSp, if_neg (by intro hc; exact h (by rw [hc]; exact List.mem_cons_self _ _)),
        ih _ (fun hm => h (List.mem_cons_of_mem _ hm))]
      simp

/-- Splitting at the first space: the space-free part before it becomes the
head piece, the remainder is split on its own. -/
lemma pySplitSp_sp (pre post : Str) (acc : Str) (h : (' ') ∉ pre) :
    pySplitSp (pre ++ ' ' :: post) acc = (acc.reverse ++ pre) :: pySplitSp post [] := by
  induction pre generalizing acc with
  | nil => simp [pySplitSp]
  | cons c cs ih =>
      rw [List.cons_append, pySplitSp,
        if_neg (by intro hc; exact h (by rw [hc]; exact List.mem_cons_self _ _)),
        ih _ (fun hm => h (List.mem_cons_of_mem _ hm))]
      simp

/-- The split always produces at least one piece. -/
lemma pySplitSp_ne_nil (l : Str) (acc : Str) : pySplitSp l acc ≠ [] := by
  induction l generalizing acc with
  | nil => simp [pySplitSp]
  | cons c cs ih =>
      rw [pySplitSp]
      split_ifs <;> simp [ih]

/-- Unfolding of the space-join on a cons with a nonempty tail. -/
lemma pyJoinSp_cons (x : Str) (xs : List Str) (h : xs ≠ []) :
    pyJoinSp (x :: xs) = x ++ ' ' :: pyJoinSp xs := by
  cases xs with
  | nil => exact absurd rfl h
  | cons y ys => rfl

/-- Joining the pieces of a split reconstructs the string. -/
lemma pyJoinSp_pySplitSp (l : Str) (acc : Str) :
    pyJoinSp (pySplitSp l acc) = acc.reverse ++ l := by
  induction l generalizing acc with
  | nil => simp [pySplitSp, pyJoinSp]
  | cons c cs ih =>
      by_cases hc : c = ' '
      · subst hc
        rw [pySplitSp, if_pos rfl, pyJoinSp_cons _ _ (pySplitSp_ne_nil _ _), ih]
        simp
      · rw [pySplitSp, if_neg hc, ih]
        simp

/-- Once `done` is set, the serve loop reads nothing further and transmits
nothing further. -/
lemma serve_loop_done (s : Server) (h : s.done = true) (lines : List Str) :
    Server.serve_loop s lines = ([], s) := by
  cases lines with
  | nil => rfl
  | cons l rest => simp [Server.serve_loop, h]

/-- With a closed peer every `recv` yields the empty chunk, so the
accumulation loop of `get_input` never observes a terminator. -/
lemma get_input_loop_closed (fuel i : Nat) (msg : Str) (h : ('\n') ∉ msg) :
    Server.get_input_loop (fun _ => []) fuel i msg = none := by
  induction fuel generalizing i with
  | zero => simp [Server.get_input_loop, h]
  | succ n ih =>
      rw [Server.get_input_loop, if_neg h, List.append_nil]
      exact ih (i + 1)

/-- C1 (counterexample): after a `quit` command the client does not receive
`OK! Goodbye!\n` — the transmitted message carries a space before the
terminator. -/
theorem C1_counterexample :
    Server.push_output (Server.route { Server.init with input_buffer := str "quit" })
      = str "OK! Goodbye! \n" ∧
    Server.push_output (Server.route { Server.init with input_buffer := str "quit" })
      ≠ str "OK! Goodbye!\n" := by
  exact ⟨rfl, by decide⟩

/-- C1 (amended): every transmitted message is the body framed as
`OK! <body> \n` when the body does not begin with `Bad!`, and as the literal
`<body> \n` when it does — one space after the marker, one trailing space,
one line-feed terminator; after a `quit` command the client receives exactly
`OK! Goodbye! \n`. -/
theorem C1_framing (s : Server) :
    ((str "Bad!").isPrefixOf s.output_buffer = false →
      Server.push_output s = str "OK! " ++ s.output_buffer ++ str " \n") ∧
    ((str "Bad!").isPrefixOf s.output_buffer = true →
      Server.push_output s = s.output_buffer ++ str " \n") ∧
    Server.push_output (Server.route { s with input_buffer := str "quit" })
      = str "OK! Goodbye! \n" := by
  refine ⟨fun h => ?_, fun h => ?_, rfl⟩
  · simp [Server.push_output, h]
  · simp [Server.push_output, h]

/-- C1 (witness): the framing theorem applied to a state holding the
`Goodbye!` body. -/
theorem C1_framing_witness :
    Server.push_output { Server.init with output_buffer := str "Goodbye!" }
      = str "OK! " ++ str "Goodbye!" ++ str " \n" :=
  (C1_framing { Server.init with output_buffer := str "Goodbye!" }).1 (by decide)

/-- C2: each of the six defined edges moves the current room to the
documented destination and writes that destination room's description into
the response. -/
theorem C2_defined_edges (s : Server) (r : Int) (d : Str) (r2 : Int)
    (hmem : (r, d, r2) ∈ edges) (hr : s.room = r) :
    (Server.move s d).room = r2 ∧
    some (Server.move s d).output_buffer = Server.room_description r2 := by
  obtain ⟨ib, ob, dn, rm⟩ := s
  simp only [edges, List.mem_cons, List.not_mem_nil, or_false, Prod.mk.injEq] at hmem
  rcases hmem with h6 | h6 | h6 | h6 | h6 | h6 <;> obtain ⟨rfl, rfl, rfl⟩ := h6
  · obtain rfl : rm = (0 : Int) := hr
    exact ⟨rfl, rfl⟩
  · obtain rfl : rm = (3 : Int) := hr
    exact ⟨rfl, rfl⟩
  · obtain rfl : rm = (0 : Int) := hr
    exact ⟨rfl, rfl⟩
  · obtain rfl : rm = (1 : Int) := hr
    exact ⟨rfl, rfl⟩
  · obtain rfl : rm = (0 : Int) := hr
    exact ⟨rfl, rfl⟩
  · obtain rfl : rm = (2 : Int) := hr
    exact ⟨rfl, rfl⟩

/-- C2 (witness): the edge (0, north, 3) taken from the initial state. -/
theorem C2_defined_edges_witness :
    (Server.move Server.init (str "north")).room = 3 ∧
    some (Server.move Server.init (str "north")).output_buffer
      = Server.room_description 3 :=
  C2_defined_edges Server.init 0 (str "north") 3 (by decide) rfl

/-- C3: from any room in 0..3, a direction argument whose lower-casing is
not a recognized token, or whose (room, direction) pair has no edge, leaves
the room unchanged and transmits the fixed rejection body under the
non-`OK!` framing. -/
theorem C3_rejected_moves (s : Server) (arg : Str)
    (_hroom : s.room = 0 ∨ s.room = 1 ∨ s.room = 2 ∨ s.room = 3)
    (hbad : pyLower arg ∉ directions ∨ MoveTable s.room (pyLower arg) = none) :
    (Server.move s arg).room = s.room ∧
    (Server.move s arg).output_buffer = Server.reject_msg ∧
    Server.push_output (Server.move s arg) = Server.reject_msg ++ str " \n" := by
  have hno : MoveTable s.room (pyLower arg) = none := by
    rcases hbad with hd | hno
    · simp only [directions, List.mem_cons, List.not_mem_nil, or_false, not_or] at hd
      obtain ⟨hn, hso, he, hw⟩ := hd
      unfold MoveTable
      rw [if_neg (fun hc => hn hc.1), if_neg (fun hc => hso hc.1),
        if_neg (fun hc => he hc.1), if_neg (fun hc => he hc.1),
        if_neg (fun hc => hw hc.1), if_neg (fun hc => hw hc.1)]
    · exact hno
  rw [move_reject s arg hno]
  exact ⟨rfl, rfl, rfl⟩

/-- C3 (witness): the unrecognized token `up` from room 0. -/
theorem C3_rejected_moves_witness :
    (Server.move Server.init (str "up")).room = Server.init.room ∧
    (Server.move Server.init (str "up")).output_buffer = Server.reject_msg ∧
    Server.push_output (Server.move Server.init (str "up"))
      = Server.reject_msg ++ str " \n" :=
  C3_rejected_moves Server.init (str "up") (Or.inl rfl) (Or.inl (by decide))

/-- C4 (counterexample): with the current room at 5 — not a key of the room
map — `move north` neither resets the room to 0 nor produces a diagnostic:
the room stays 5 and the response is the ordinary rejection message. -/
theorem C4_counterexample :
    (Server.move { Server.init with room := 5 } (str "north")).room = 5 ∧
    (Server.move { Server.init with room := 5 } (str "north")).output_buffer
      = Server.reject_msg ∧
    (Server.move { Server.init with room := 5 } (str "north")).output_buffer
      ≠ Server.collapse_desc := by
  exact ⟨rfl, rfl, by decide⟩

/-- C4 (amended): if the current room is not a key of the room map, `move`
(for any direction argument) does not crash and does not propagate a lookup
failure: it leaves the invalid room unchanged and produces the fixed
rejection message, never the consistency-repair diagnostic. -/
theorem C4_amended (s : Server) (arg : Str)
    (h : Server.room_description s.room = none) :
    (Server.move s arg).room = s.room ∧
    (Server.move s arg).output_buffer = Server.reject_msg ∧
    (Server.move s arg).output_buffer ≠ Server.collapse_desc := by
  have hr := (room_description_none_iff s.room).1 h
  push_neg at hr
  obtain ⟨h0, h1, h2, h3⟩ := hr
  have hno : MoveTable s.room (pyLower arg) = none := by
    unfold MoveTable
    rw [if_neg (fun hc => h0 hc.2), if_neg (fun hc => h3 hc.2),
      if_neg (fun hc => h0 hc.2), if_neg (fun hc => h2 hc.2),
      if_neg (fun hc => h0 hc.2), if_neg (fun hc => h1 hc.2)]
  rw [move_reject s arg hno]
  refine ⟨rfl, rfl, ?_⟩
  show Server.reject_msg ≠ Server.collapse_desc
  decide

/-- C4 (witness): the amended behavior at the concrete invalid room 5. -/
theorem C4_amended_witness :
    (Server.move { Server.init with room := 5 } (str "west")).room = 5 ∧
    (Server.move { Server.init with room := 5 } (str "west")).output_buffer
      = Server.reject_msg ∧
    (Server.move { Server.init with room := 5 } (str "west")).output_buffer
      ≠ Server.collapse_desc := by
  exact C4_amended { Server.init with room := 5 } (str "west") (by decide)

/-- C5: the room description lookup succeeds exactly on the valid ids 0..3,
returning each room's description, and signals failure (the `None` the spec
names `InvalidRoom`) on every other value. -/
theorem C5_room_description (r : Int) :
    (Server.room_description r = none ↔ ¬(r = 0 ∨ r = 1 ∨ r = 2 ∨ r = 3)) ∧
    Server.room_description 0 = some Server.room_0_desc ∧
    Server.room_description 1 = some Server.room_1_desc ∧
    Server.room_description 2 = some Server.room_2_desc ∧
    Server.room_description 3 = some Server.room_3_desc :=
  ⟨room_description_none_iff r, rfl, rfl, rfl, rfl⟩

/-- C6 (counterexample): on `move  north` (two spaces) the router hands the
handler the argument ` north` — everything after the first space character,
leading space included — not the `north` that splitting on the first
whitespace run would give, and the move is consequently rejected. -/
theorem C6_counterexample :
    Server.route_action (str "move  north") = str " north" ∧
    (spec_split_run (str "move  north")).2 = str "north" ∧
    Server.route_action (str "move  north") ≠ (spec_split_run (str "move  north")).2 ∧
    (Server.route { Server.init with input_buffer := str "move  north" }).room = 0 := by
  exact ⟨rfl, rfl, by decide, rfl⟩

/-- C6 (amended): the router splits the line at the first space character
only: the verb is the text before the first space, lower-cased; the argument
is everything after the first space, preserved verbatim (empty when the line
has no space); runs of spaces are not collapsed and other whitespace does
not separate. -/
theorem C6_split_first_space (pre post line : Str) :
    ((' ') ∉ pre →
      Server.route_command (pre ++ ' ' :: post) = pyLower pre ∧
      Server.route_action (pre ++ ' ' :: post) = post) ∧
    ((' ') ∉ line →
      Server.route_command line = pyLower line ∧ Server.route_action line = []) := by
  constructor
  · intro h
    constructor
    · unfold Server.route_command pySplit
      rw [pySplitSp_sp _ _ _ h]
      rfl
    · unfold Server.route_action pySplit
      rw [pySplitSp_sp _ _ _ h]
      show pyJoinSp (pySplitSp post []) = post
      rw [pyJoinSp_pySplitSp]
      rfl
  · intro h
    constructor
    · unfold Server.route_command pySplit
      rw [pySplitSp_no_sp _ _ h]
      rfl
    · unfold Server.route_action pySplit
      rw [pySplitSp_no_sp _ _ h]
      rfl

/-- C6 (witness): the split theorem applied to the verb `move` and the
remainder ` north` (so the whole line is `move  north`). -/
theorem C6_split_first_space_witness :
    Server.route_command (str "move" ++ ' ' :: str " north") = pyLower (str "move") ∧
    Server.route_action (str "move" ++ ' ' :: str " north") = str " north" := by
  exact (C6_split_first_space (str "move") (str " north") []).1 (by decide)

/-- C7: a line whose verb is not `move`, `say` or `quit` (the empty line
included) makes the router write the fixed guidance message, transmitted
under the non-`OK!` framing, leaving the room and the termination flag
unchanged. -/
theorem C7_unrecognized_verb (s : Server)
    (h : Server.route_command s.input_buffer ∉ [str "quit", str "say", str "move"]) :
    Server.route s
      = { s with output_buffer := str "Bad! You can either move, say, or quit." } ∧
    (Server.route s).room = s.room ∧
    (Server.route s).done = s.done ∧
    Server.push_output (Server.route s)
      = str "Bad! You can either move, say, or quit. \n" := by
  simp only [List.mem_cons, List.not_mem_nil, or_false, not_or] at h
  obtain ⟨hq, hsy, hm⟩ := h
  have hroute : Server.route s
      = { s with output_buffer := str "Bad! You can either move, say, or quit." } := by
    simp only [Server.route]
    rw [if_neg hq, if_neg hsy, if_neg hm]
  rw [hroute]
  exact ⟨rfl, rfl, rfl, rfl⟩

/-- C7 (witness): the unrecognized verb `dance`. -/
theorem C7_unrecognized_verb_witness :
    Server.route { Server.init with input_buffer := str "dance now" }
      = { input_buffer := str "dance now",
          output_buffer := str "Bad! You can either move, say, or quit.",
          done := false, room := 0 } ∧
    (Server.route { Server.init with input_buffer := str "dance now" }).room = 0 ∧
    (Server.route { Server.init with input_buffer := str "dance now" }).done = false ∧
    Server.push_output (Server.route { Server.init with input_buffer := str "dance now" })
      = str "Bad! You can either move, say, or quit. \n" := by
  exact C7_unrecognized_verb { Server.init with input_buffer := str "dance now" } (by decide)

/-- C8: `quit` ignores its argument, sets the termination flag, and answers
`Goodbye!` under `OK!` framing; for any line whose verb is `quit`, the serve
loop transmits exactly that one framed response and stops — the remaining
input is never read and nothing further is transmitted. -/
theorem C8_quit_terminates (s : Server) (arg arg2 line : Str) (rest : List Str)
    (hdone : s.done = false) (hline : Server.route_command line = str "quit") :
    (Server.quit s arg).done = true ∧
    (Server.quit s arg).output_buffer = str "Goodbye!" ∧
    Server.quit s arg = Server.quit s arg2 ∧
    Server.push_output (Server.quit s arg) = str "OK! Goodbye! \n" ∧
    Server.serve_loop s (line :: rest)
      = ([str "OK! Goodbye! \n"],
         Server.quit { s with input_buffer := line } (Server.route_action line)) := by
  refine ⟨rfl, rfl, rfl, rfl, ?_⟩
  have hr : Server.route { s with input_buffer := line }
      = Server.quit { s with input_buffer := line } (Server.route_action line) := by
    simp only [Server.route]
    rw [if_pos hline]
  simp only [Server.serve_loop]
  rw [if_neg (by simp [hdone]), hr,
    serve_loop_done (Server.quit { s with input_buffer := line }
      (Server.route_action line)) rfl rest]
  rfl

/-- C8 (witness): quitting from the initial state with a pending `say`
line that is never read. -/
theorem C8_quit_terminates_witness :
    (Server.quit Server.init (str "now")).done = true ∧
    (Server.quit Server.init (str "now")).output_buffer = str "Goodbye!" ∧
    Server.quit Server.init (str "now") = Server.quit Server.init (str "x") ∧
    Server.push_output (Server.quit Server.init (str "now")) = str "OK! Goodbye! \n" ∧
    Server.serve_loop Server.init (str "quit" :: [str "say hi"])
      = ([str "OK! Goodbye! \n"],
         Server.quit { Server.init with input_buffer := str "quit" }
           (Server.route_action (str "quit"))) := by
  exact C8_quit_terminates Server.init (str "now") (str "x") (str "quit")
    [str "say hi"] rfl (by decide)

/-- C9: with the peer closed before any terminator has been received, every
`recv` returns the empty chunk and the blocking line read never completes,
no matter how many iterations are allowed: the engine keeps retrying `recv`
in an unbounded loop instead of surfacing a fatal session error. -/
theorem C9_closed_peer_read_never_returns (fuel : Nat) :
    Server.get_input (fun _ => []) fuel = none := by
  unfold Server.get_input
  rw [get_input_loop_closed fuel 0 [] (List.not_mem_nil _)]
  rfl

/-- C10: the say handler, the quit handler, and routing a line whose verb is
not `move` all leave the current room unchanged. -/
theorem C10_only_move_changes_room (s : Server) (arg : Str)
    (h : Server.route_command s.input_buffer ≠ str "move") :
    (Server.say s arg).room = s.room ∧
    (Server.quit s arg).room = s.room ∧
    (Server.route s).room = s.room := by
  refine ⟨rfl, rfl, ?_⟩
  simp only [Server.route]
  by_cases h1 : Server.route_command s.input_buffer = str "quit"
  · rw [if_pos h1]
    rfl
  · rw [if_neg h1]
    by_cases h2 : Server.route_command s.input_buffer = str "say"
    · rw [if_pos h2]
      rfl
    · rw [if_neg h2, if_neg h]

/-- C10 (witness): a `say` line leaves room 0 in place. -/
theorem C10_only_move_changes_room_witness :
    (Server.say { Server.init with input_buffer := str "say hi" } (str "hi")).room = 0 ∧
    (Server.quit { Server.init with input_buffer := str "say hi" } (str "hi")).room = 0 ∧
    (Server.route { Server.init with input_buffer := str "say hi" }).room = 0 := by
  exact C10_only_move_changes_room { Server.init with input_buffer := str "say hi" }
    (str "hi") (by decide)
